import Mathlib

/-!
# Verification of `cratecheck.py` (CrateCheck — Rust crate quality validation script)

Shallow embedding of the check-orchestration logic of `src/cratecheck.py`.

The script is a sequential runner over a static checklist of external
commands and file-existence checks.  We embed:

* the mutable state of the `CrateChecker` object (`CrateChecker` structure,
  extended with an `invoked` trace recording every command spawned, used to
  state "check X is never invoked" properties);
* the outcome of spawning an external command (`CmdOutcome`), abstracting
  `subprocess.run`: normal termination with a return code and captured
  stdout/stderr, `subprocess.TimeoutExpired`, or any other exception;
* an environment `Env` mapping a command vector and the timeout passed to
  `subprocess.run` to its outcome, and a filesystem `FS` mapping a file
  name to whether `Path(filename).exists()` holds;
* every method of the `CrateChecker` class and the `main` entry point.

Printing (`print_header`, `print_step`, colour codes, the summary text) has
no effect on state or verdict and is not modelled; `print_summary`'s
branching and return value are modelled exactly, with the chosen branch
recorded as a `Verdict`.
-/

set_option autoImplicit false
set_option linter.unusedVariables false

namespace CrateCheck

/-- A command argument vector, e.g. `["cargo", "check"]`. -/
abbrev Cmd := List String

/-- Outcome of `subprocess.run` on one command: normal termination with a
return code and captured stdout/stderr text, timeout expiry, or any other
exception (spawn failure etc.) carrying `str(e)`. -/
inductive CmdOutcome where
  | exited (returncode : Int) (stdout : String) (stderr : String)
  | timeoutExpired
  | exc (msg : String)
  deriving Repr, DecidableEq

/-- The external world of commands: given an argument vector and the
timeout (in seconds) passed to `subprocess.run`, the outcome. -/
abbrev Env := Cmd → Nat → CmdOutcome

/-- The filesystem: `fs name = true` iff `Path(name).exists()`. -/
abbrev FS := String → Bool

/-- The timeout passed to every `subprocess.run` call (`timeout=300`). -/
def command_timeout : Nat := 300

/-- State of a `CrateChecker` object (`__init__` gives the defaults),
plus an `invoked` trace of the commands spawned so far (instrumentation:
the Python object does not store it, but it records exactly the
`subprocess.run` calls made, so that non-invocation is statable). -/
structure CrateChecker where
  passed_checks : Nat := 0
  total_checks : Nat := 0
  failed_checks : List String := []
  warnings : List String := []
  invoked : List Cmd := []
  deriving Repr, DecidableEq

/-- The freshly constructed checker: `CrateChecker()`. -/
def initial : CrateChecker := {}

/-- `CrateChecker.run_command(cmd, description, critical)`: increments
`total_checks`, spawns the command (recorded in `invoked`), then classifies
the outcome.  Returns the updated state together with the Python return
value `(success, output)`. -/
def run_command (env : Env) (self : CrateChecker) (cmd : Cmd)
    (description : String) (critical : Bool) :
    CrateChecker × Bool × String :=
  let self := { self with
    total_checks := self.total_checks + 1
    invoked := self.invoked ++ [cmd] }
  match env cmd command_timeout with
  | .exited returncode stdout stderr =>
    if returncode = 0 then
      ({ self with passed_checks := self.passed_checks + 1 }, true, stdout)
    else
      let error_msg := description ++ " - FAILED"
      if critical then
        ({ self with failed_checks := self.failed_checks ++ [error_msg] },
          false, stderr)
      else
        ({ self with warnings := self.warnings ++ [error_msg] }, false, stderr)
  | .timeoutExpired =>
    let error_msg := description ++ " - TIMEOUT"
    if critical then
      ({ self with failed_checks := self.failed_checks ++ [error_msg] },
        false, "Command timed out")
    else
      ({ self with warnings := self.warnings ++ [error_msg] },
        false, "Command timed out")
  | .exc e =>
    let error_msg := description ++ " - ERROR: " ++ e
    if critical then
      ({ self with failed_checks := self.failed_checks ++ [error_msg] },
        false, e)
    else
      ({ self with warnings := self.warnings ++ [error_msg] }, false, e)

/-- The common loop shape of every command phase: run each `(cmd, desc)`
through `run_command` with the phase's criticality, accumulating the
`all_passed` flag (`if not success: all_passed = False`). -/
def run_check_list (env : Env) (critical : Bool) :
    List (Cmd × String) → CrateChecker → CrateChecker × Bool
  | [], self => (self, true)
  | (cmd, desc) :: rest, self =>
    let r := run_command env self cmd desc critical
    let rr := run_check_list env critical rest r.1
    (rr.1, r.2.1 && rr.2)

/-- The `tools` list of `check_prerequisites`. -/
def tools : List (Cmd × String) :=
  [(["cargo", "--version"], "Cargo availability"),
   (["rustc", "--version"], "Rust compiler availability"),
   (["git", "--version"], "Git availability")]

/-- `CrateChecker.check_prerequisites`: runs all three tool checks
(critical), returns whether all succeeded. -/
def check_prerequisites (env : Env) (self : CrateChecker) :
    CrateChecker × Bool :=
  run_check_list env true tools self

/-- The `checks` list of `core_compilation_tests`. -/
def core_checks : List (Cmd × String) :=
  [(["cargo", "check"], "Basic compilation check"),
   (["cargo", "build"], "Full build"),
   (["cargo", "build", "--release"], "Release build"),
   (["cargo", "test"], "All tests"),
   (["cargo", "test", "--all-targets"], "All targets tests")]

/-- `CrateChecker.core_compilation_tests`: five critical checks. -/
def core_compilation_tests (env : Env) (self : CrateChecker) :
    CrateChecker × Bool :=
  run_check_list env true core_checks self

/-- The `checks` list of `code_quality_checks`. -/
def quality_checks : List (Cmd × String) :=
  [(["cargo", "fmt", "--all", "--check"], "Code formatting"),
   (["cargo", "clippy", "--all-targets", "--all-features", "--", "-D",
     "warnings"], "Clippy linting"),
   (["cargo", "check", "--all-targets", "--all-features"],
     "All features check")]

/-- `CrateChecker.code_quality_checks`: three critical checks. -/
def code_quality_checks (env : Env) (self : CrateChecker) :
    CrateChecker × Bool :=
  run_check_list env true quality_checks self

/-- The `checks` list of `documentation_checks`. -/
def doc_checks : List (Cmd × String) :=
  [(["cargo", "doc", "--no-deps"], "Basic documentation"),
   (["cargo", "doc", "--all-features", "--no-deps"],
     "Documentation with all features")]

/-- `CrateChecker.documentation_checks`: two non-critical checks. -/
def documentation_checks (env : Env) (self : CrateChecker) :
    CrateChecker × Bool :=
  run_check_list env false doc_checks self

/-- The `checks` list of `package_validation`. -/
def package_checks : List (Cmd × String) :=
  [(["cargo", "package", "--list"], "Package file list"),
   (["cargo", "package", "--allow-dirty"], "Package creation")]

/-- `CrateChecker.package_validation`: two non-critical checks. -/
def package_validation (env : Env) (self : CrateChecker) :
    CrateChecker × Bool :=
  run_check_list env false package_checks self

/-- The `required_files` list of `metadata_checks`. -/
def required_files : List (String × String) :=
  [("Cargo.toml", "Cargo manifest"),
   ("README.md", "README file"),
   ("LICENSE", "License file")]

/-- One iteration group of the `metadata_checks` loop: for each
`(filename, desc)`, if the file exists increment `passed_checks`, else
append `"{desc} missing"` to `warnings` and, when the filename is in
`["Cargo.toml"]`, clear `all_passed`; in either case `total_checks`
is incremented afterwards. -/
def metadata_go (fs : FS) :
    List (String × String) → CrateChecker → CrateChecker × Bool
  | [], self => (self, true)
  | (filename, desc) :: rest, self =>
    let step :=
      if fs filename then
        ({ self with passed_checks := self.passed_checks + 1 }, true)
      else
        ({ self with warnings := self.warnings ++ [desc ++ " missing"] },
          !(["Cargo.toml"].contains filename))
    let self := { step.1 with total_checks := step.1.total_checks + 1 }
    let rr := metadata_go fs rest self
    (rr.1, step.2 && rr.2)

/-- `CrateChecker.metadata_checks`: existence checks for the three
required files. -/
def metadata_checks (fs : FS) (self : CrateChecker) :
    CrateChecker × Bool :=
  metadata_go fs required_files self

/-- The branch chosen by the verdict logic of `print_summary`. -/
inductive Verdict where
  /-- "CRATE IS READY FOR CRATES.IO RELEASE" — returns `True`. -/
  | readyForRelease
  /-- "CRATE NOT READY - WARNINGS MUST BE FIXED" — returns `False`. -/
  | notReadyWarnings
  /-- "CRATE NOT READY FOR RELEASE" — returns `False`. -/
  | notReadyFailures
  deriving Repr, DecidableEq

/-- The final-verdict branching of `CrateChecker.print_summary`:
`if not self.failed_checks and not self.warnings` → ready (True);
`elif not self.failed_checks and self.warnings` → warnings (False);
`else` → failures (False).  Returns the branch taken and the Python
return value. -/
def print_summary (self : CrateChecker) : Verdict × Bool :=
  if self.failed_checks.isEmpty && self.warnings.isEmpty then
    (.readyForRelease, true)
  else if self.failed_checks.isEmpty && !self.warnings.isEmpty then
    (.notReadyWarnings, false)
  else
    (.notReadyFailures, false)

/-- `CrateChecker.run_all_checks`: prerequisites first (aborting with
`False` on failure), then the five phases accumulating `checks_passed`
with `&=` (a value the source never reads afterwards), then
`print_summary()`'s return value. -/
def run_all_checks (env : Env) (fs : FS) (self : CrateChecker) :
    CrateChecker × Bool :=
  let p := check_prerequisites env self
  if !p.2 then
    (p.1, false)
  else
    let s1 := core_compilation_tests env p.1
    let s2 := code_quality_checks env s1.1
    let s3 := documentation_checks env s2.1
    let s4 := package_validation env s3.1
    let s5 := metadata_checks fs s4.1
    let checks_passed := true && s1.2 && s2.2 && s3.2 && s4.2 && s5.2
    (s5.1, (print_summary s5.1).2)

/-- The help-flag test of `main`:
`len(sys.argv) > 1 and sys.argv[1] in ["-h", "--help"]`
(`argv` here is `sys.argv[1:]`). -/
def helpRequested (argv : List String) : Bool :=
  match argv with
  | [] => false
  | a :: _ => ["-h", "--help"].contains a

/-- `main`: on the help flag, print usage and return (process exits 0,
no checker is ever constructed); otherwise construct a checker, run all
checks, and `sys.exit(0 if success else 1)`.  Returns the process exit
code and the final checker state (the fresh `initial` state in the help
branch, where no check runs). -/
def main (argv : List String) (env : Env) (fs : FS) :
    Nat × CrateChecker :=
  if helpRequested argv then
    (0, initial)
  else
    let r := run_all_checks env fs initial
    (if r.2 then 0 else 1, r.1)

/-! ## Derived notions used to state properties -/

/-- Whether an outcome is classified as success by `run_command`
(`result.returncode == 0`). -/
def outcomePassed : CmdOutcome → Bool
  | .exited returncode _ _ => returncode == 0
  | .timeoutExpired => false
  | .exc _ => false

/-- The label `run_command` records for a failing check: `"- FAILED"` on a
non-zero exit, `"- TIMEOUT"` on timeout expiry, `"- ERROR: ..."` on any
other exception. -/
def failLabel (description : String) : CmdOutcome → String
  | .exited _ _ _ => description ++ " - FAILED"
  | .timeoutExpired => description ++ " - TIMEOUT"
  | .exc e => description ++ " - ERROR: " ++ e

/-- Number of checks in a list that the environment lets pass. -/
def passCount (env : Env) (checks : List (Cmd × String)) : Nat :=
  (checks.filter fun c => outcomePassed (env c.1 command_timeout)).length

/-- The failure labels produced by a list of checks, in order. -/
def failLabels (env : Env) (checks : List (Cmd × String)) : List String :=
  (checks.filter fun c => !outcomePassed (env c.1 command_timeout)).map
    fun c => failLabel c.2 (env c.1 command_timeout)

/-- Number of required files that exist. -/
def filePassCount (fs : FS) (files : List (String × String)) : Nat :=
  (files.filter fun f => fs f.1).length

/-- The `"{desc} missing"` warnings produced by the metadata loop, in
order. -/
def missingLabels (fs : FS) (files : List (String × String)) : List String :=
  (files.filter fun f => !fs f.1).map fun f => f.2 ++ " missing"

/-- The counter invariant: every check recorded so far was counted once,
either as passed, as a critical failure, or as a warning. -/
def counters_balanced (s : CrateChecker) : Prop :=
  s.total_checks =
    s.passed_checks + s.failed_checks.length + s.warnings.length

/-! ## Concrete environments and filesystems used as witnesses -/

/-- Every command exits 0. -/
def envAllPass : Env := fun _ _ => .exited 0 "" ""

/-- Every command exits 1 with empty stderr. -/
def envAllFail : Env := fun _ _ => .exited 1 "" ""

/-- Every command exits 1 with non-empty stderr. -/
def envFailStderr : Env := fun _ _ => .exited 1 "" "error: build failed"

/-- Every command exceeds the timeout. -/
def envExpires : Env := fun _ _ => .timeoutExpired

/-- Every required file exists. -/
def fsAll : FS := fun _ => true

/-- No required file exists. -/
def fsNone : FS := fun _ => false

/-- Only the build manifest exists. -/
def fsOnlyManifest : FS := fun name => name == "Cargo.toml"

/-! ## Basic lemmas about the executor and the phase loops -/

/-- Field-by-field description of one `run_command` call. -/
theorem run_command_fields (env : Env) (s : CrateChecker) (cmd : Cmd)
    (desc : String) (critical : Bool) :
    (run_command env s cmd desc critical).1.total_checks =
      s.total_checks + 1 ∧
    (run_command env s cmd desc critical).1.invoked = s.invoked ++ [cmd] ∧
    (run_command env s cmd desc critical).1.passed_checks =
      s.passed_checks +
        (if outcomePassed (env cmd command_timeout) then 1 else 0) ∧
    (run_command env s cmd desc critical).1.failed_checks =
      s.failed_checks ++
        (if !outcomePassed (env cmd command_timeout) && critical then
          [failLabel desc (env cmd command_timeout)] else []) ∧
    (run_command env s cmd desc critical).1.warnings =
      s.warnings ++
        (if !outcomePassed (env cmd command_timeout) && !critical then
          [failLabel desc (env cmd command_timeout)] else []) ∧
    (run_command env s cmd desc critical).2.1 =
      outcomePassed (env cmd command_timeout) := by
  cases h : env cmd command_timeout with
  | exited rc out err =>
    by_cases hrc : rc = 0 <;>
      cases critical <;>
        simp [run_command, outcomePassed, failLabel, h, hrc]
  | timeoutExpired =>
    cases critical <;> simp [run_command, outcomePassed, failLabel, h]
  | exc e =>
    cases critical <;> simp [run_command, outcomePassed, failLabel, h]

theorem passCount_cons (env : Env) (c : Cmd × String)
    (rest : List (Cmd × String)) :
    passCount env (c :: rest) =
      (if outcomePassed (env c.1 command_timeout) then 1 else 0) +
        passCount env rest := by
  by_cases h : outcomePassed (env c.1 command_timeout) <;>
    simp [passCount, List.filter_cons, h, Nat.add_comm]

theorem failLabels_cons (env : Env) (c : Cmd × String)
    (rest : List (Cmd × String)) :
    failLabels env (c :: rest) =
      (if outcomePassed (env c.1 command_timeout) then []
        else [failLabel c.2 (env c.1 command_timeout)]) ++
        failLabels env rest := by
  by_cases h : outcomePassed (env c.1 command_timeout) <;>
    simp [failLabels, List.filter_cons, h]

/-- Closed-form description of a whole command phase (`run_check_list`):
per-field effect on the state, and the accumulated `all_passed` flag. -/
theorem run_check_list_spec (env : Env) (critical : Bool)
    (checks : List (Cmd × String)) (s : CrateChecker) :
    (run_check_list env critical checks s).1.passed_checks =
      s.passed_checks + passCount env checks ∧
    (run_check_list env critical checks s).1.total_checks =
      s.total_checks + checks.length ∧
    (run_check_list env critical checks s).1.failed_checks =
      s.failed_checks ++ (if critical then failLabels env checks else []) ∧
    (run_check_list env critical checks s).1.warnings =
      s.warnings ++ (if critical then [] else failLabels env checks) ∧
    (run_check_list env critical checks s).1.invoked =
      s.invoked ++ checks.map Prod.fst ∧
    (run_check_list env critical checks s).2 =
      checks.all (fun c => outcomePassed (env c.1 command_timeout)) := by
  induction checks generalizing s with
  | nil => simp [run_check_list, passCount, failLabels]
  | cons c rest ih =>
    obtain ⟨cmd, desc⟩ := c
    obtain ⟨g1, g2, g3, g4, g5, g6⟩ :=
      run_command_fields env s cmd desc critical
    obtain ⟨h1, h2, h3, h4, h5, h6⟩ :=
      ih (run_command env s cmd desc critical).1
    cases hpass : outcomePassed (env cmd command_timeout) <;>
      cases critical <;>
        simp_all [run_check_list, passCount_cons, failLabels_cons,
          List.append_assoc, Nat.add_comm, Nat.add_assoc, Nat.add_left_comm]

theorem filePassCount_cons (fs : FS) (f : String × String)
    (rest : List (String × String)) :
    filePassCount fs (f :: rest) =
      (if fs f.1 then 1 else 0) + filePassCount fs rest := by
  by_cases h : fs f.1 <;>
    simp [filePassCount, List.filter_cons, h, Nat.add_comm]

theorem missingLabels_cons (fs : FS) (f : String × String)
    (rest : List (String × String)) :
    missingLabels fs (f :: rest) =
      (if fs f.1 then [] else [f.2 ++ " missing"]) ++
        missingLabels fs rest := by
  by_cases h : fs f.1 <;> simp [missingLabels, List.filter_cons, h]

/-- Closed-form description of the metadata loop: per-field effect on the
state, and the `all_passed` flag (cleared only by a missing file whose
name is in `["Cargo.toml"]`). -/
theorem metadata_go_spec (fs : FS) (files : List (String × String))
    (s : CrateChecker) :
    (metadata_go fs files s).1.passed_checks =
      s.passed_checks + filePassCount fs files ∧
    (metadata_go fs files s).1.total_checks =
      s.total_checks + files.length ∧
    (metadata_go fs files s).1.failed_checks = s.failed_checks ∧
    (metadata_go fs files s).1.warnings =
      s.warnings ++ missingLabels fs files ∧
    (metadata_go fs files s).1.invoked = s.invoked ∧
    (metadata_go fs files s).2 =
      files.all (fun f => fs f.1 || !(["Cargo.toml"].contains f.1)) := by
  induction files generalizing s with
  | nil => simp [metadata_go, filePassCount, missingLabels]
  | cons f rest ih =>
    obtain ⟨filename, desc⟩ := f
    cases hf : fs filename <;>
      simp_all [metadata_go, filePassCount_cons, missingLabels_cons,
        List.append_assoc, Nat.add_comm, Nat.add_assoc, Nat.add_left_comm]

/-- When the prerequisites pass, `run_all_checks` runs the five phases in
order and returns `print_summary`'s verdict on the final state. -/
theorem run_all_checks_pre_true (env : Env) (fs : FS) (s : CrateChecker)
    (hpre : (check_prerequisites env s).2 = true) :
    run_all_checks env fs s =
      ((metadata_checks fs (package_validation env (documentation_checks env
          (code_quality_checks env (core_compilation_tests env
            (check_prerequisites env s).1).1).1).1).1).1,
        (print_summary (metadata_checks fs (package_validation env
          (documentation_checks env (code_quality_checks env
            (core_compilation_tests env
              (check_prerequisites env s).1).1).1).1).1).1).2) := by
  simp [run_all_checks, hpre]

/-- When a prerequisite fails, `run_all_checks` stops right after the
prerequisite phase and returns `False`. -/
theorem run_all_checks_pre_false (env : Env) (fs : FS) (s : CrateChecker)
    (hpre : (check_prerequisites env s).2 = false) :
    run_all_checks env fs s = ((check_prerequisites env s).1, false) := by
  simp [run_all_checks, hpre]

/-- `print_summary` returns `True` exactly when both lists are empty. -/
theorem print_summary_snd_iff (s : CrateChecker) :
    (print_summary s).2 = true ↔
      s.failed_checks = [] ∧ s.warnings = [] := by
  by_cases hf : s.failed_checks = [] <;>
    by_cases hw : s.warnings = [] <;>
      simp [print_summary, hf, hw]

/-- The three branches of `print_summary`'s verdict logic. -/
theorem print_summary_branches (s : CrateChecker) :
    (s.failed_checks = [] ∧ s.warnings = [] →
      print_summary s = (.readyForRelease, true)) ∧
    (s.failed_checks = [] ∧ s.warnings ≠ [] →
      print_summary s = (.notReadyWarnings, false)) ∧
    (s.failed_checks ≠ [] →
      print_summary s = (.notReadyFailures, false)) := by
  refine ⟨fun h => ?_, fun h => ?_, fun h => ?_⟩ <;>
    by_cases hf : s.failed_checks = [] <;>
      by_cases hw : s.warnings = [] <;>
        simp_all [print_summary]

/-- Filtering a list by a predicate and by its negation splits its
length. -/
theorem length_filter_split {α : Type} (p : α → Bool) (l : List α) :
    (l.filter p).length + (l.filter fun a => !p a).length = l.length := by
  induction l with
  | nil => rfl
  | cons a t ih =>
    by_cases h : p a <;> simp [List.filter_cons, h] <;> omega

/-! ## Claim theorems -/

/-- Claim C1: for every completed run (prerequisites passed), the final
verdict is exactly one of three mutually exclusive outcomes determined by
the recorded lists: zero critical failures and zero warnings yields the
ready-to-publish verdict and exit code 0; zero critical failures with at
least one warning yields the warnings-must-be-fixed verdict and exit
code 1; at least one critical failure yields the not-ready verdict and
exit code 1. -/
theorem C1_verdict_and_exit_code (env : Env) (fs : FS)
    (hpre : (check_prerequisites env initial).2 = true) :
    ((run_all_checks env fs initial).1.failed_checks = [] ∧
        (run_all_checks env fs initial).1.warnings = [] →
      print_summary (run_all_checks env fs initial).1 =
        (Verdict.readyForRelease, true) ∧ (main [] env fs).1 = 0) ∧
    ((run_all_checks env fs initial).1.failed_checks = [] ∧
        (run_all_checks env fs initial).1.warnings ≠ [] →
      print_summary (run_all_checks env fs initial).1 =
        (Verdict.notReadyWarnings, false) ∧ (main [] env fs).1 = 1) ∧
    ((run_all_checks env fs initial).1.failed_checks ≠ [] →
      print_summary (run_all_checks env fs initial).1 =
        (Verdict.notReadyFailures, false) ∧ (main [] env fs).1 = 1) := by
  have hmain : main [] env fs =
      (if (run_all_checks env fs initial).2 then 0 else 1,
        (run_all_checks env fs initial).1) := by
    simp [main, helpRequested]
  have hsnd : (run_all_checks env fs initial).2 =
      (print_summary (run_all_checks env fs initial).1).2 := by
    rw [run_all_checks_pre_true env fs initial hpre]
  obtain ⟨b1, b2, b3⟩ :=
    print_summary_branches (run_all_checks env fs initial).1
  refine ⟨fun h => ?_, fun h => ?_, fun h => ?_⟩
  · exact ⟨b1 h, by rw [hmain]; simp [hsnd, b1 h]⟩
  · exact ⟨b2 h, by rw [hmain]; simp [hsnd, b2 h]⟩
  · exact ⟨b3 h, by rw [hmain]; simp [hsnd, b3 h]⟩

/-- Witness for C1: with every command passing and every file present,
the run is ready to publish and exits 0. -/
theorem C1_verdict_and_exit_code_witness :
    print_summary (run_all_checks envAllPass fsAll initial).1 =
      (Verdict.readyForRelease, true) ∧ (main [] envAllPass fsAll).1 = 0 :=
  (C1_verdict_and_exit_code envAllPass fsAll (by decide)).1
    ⟨by decide, by decide⟩

/-- Claim C2: after every check is recorded — by command execution
(success, non-zero exit, timeout, or spawn error) or by a metadata
file-existence check — the run state satisfies
`total_checks = passed_checks + len(critical_failures) + len(warnings)`;
consequently the full run from the fresh state satisfies it as well. -/
theorem C2_counter_invariant :
    (∀ (env : Env) (s : CrateChecker) (cmd : Cmd) (desc : String)
        (critical : Bool), counters_balanced s →
      counters_balanced (run_command env s cmd desc critical).1) ∧
    (∀ (fs : FS) (files : List (String × String)) (s : CrateChecker),
        counters_balanced s →
      counters_balanced (metadata_go fs files s).1) ∧
    (∀ (env : Env) (fs : FS),
      counters_balanced (run_all_checks env fs initial).1) := by
  have hcmd : ∀ (env : Env) (s : CrateChecker) (cmd : Cmd) (desc : String)
      (critical : Bool), counters_balanced s →
      counters_balanced (run_command env s cmd desc critical).1 := by
    intro env s cmd desc critical hs
    obtain ⟨g1, g2, g3, g4, g5, g6⟩ :=
      run_command_fields env s cmd desc critical
    unfold counters_balanced at *
    cases hpass : outcomePassed (env cmd command_timeout) <;>
      cases critical <;> simp_all <;> omega
  have hmeta : ∀ (fs : FS) (files : List (String × String))
      (s : CrateChecker), counters_balanced s →
      counters_balanced (metadata_go fs files s).1 := by
    intro fs files s hs
    obtain ⟨m1, m2, m3, m4, m5, m6⟩ := metadata_go_spec fs files s
    have hsplit := length_filter_split (fun f => fs f.1) files
    unfold counters_balanced at *
    rw [m1, m2, m3, m4]
    simp only [filePassCount, missingLabels, List.length_append,
      List.length_map] at *
    omega
  have hlist : ∀ (env : Env) (critical : Bool)
      (checks : List (Cmd × String)) (s : CrateChecker),
      counters_balanced s →
      counters_balanced (run_check_list env critical checks s).1 := by
    intro env critical checks
    induction checks with
    | nil => intro s hs; simpa [run_check_list] using hs
    | cons c rest ih =>
      intro s hs
      obtain ⟨cmd, desc⟩ := c
      simp only [run_check_list]
      exact ih _ (hcmd env s cmd desc critical hs)
  refine ⟨hcmd, hmeta, ?_⟩
  intro env fs
  have hinit : counters_balanced initial := rfl
  cases hb : (check_prerequisites env initial).2
  · rw [run_all_checks_pre_false env fs initial hb]
    exact hlist _ _ _ _ hinit
  · rw [run_all_checks_pre_true env fs initial hb]
    simp only [metadata_checks, package_validation, documentation_checks,
      code_quality_checks, core_compilation_tests, check_prerequisites]
    exact hmeta _ _ _ (hlist _ _ _ _ (hlist _ _ _ _ (hlist _ _ _ _
      (hlist _ _ _ _ (hlist _ _ _ _ hinit)))))

/-- Witness for C2: the invariant holds after a failing command recorded
from the fresh state. -/
theorem C2_counter_invariant_witness :
    counters_balanced
      (run_command envAllFail initial ["cargo", "check"]
        "Basic compilation check" true).1 :=
  C2_counter_invariant.1 envAllFail initial ["cargo", "check"]
    "Basic compilation check" true rfl

/-- Counterexample to claim C3 as stated: with no files present, the
missing-manifest record lands in `warnings`, and the critical-failures
list stays empty — a missing `Cargo.toml` is NOT routed to the
critical-failures list. -/
theorem C3_missing_manifest_not_in_failed_cex :
    (metadata_checks fsNone initial).1.failed_checks = [] ∧
    "Cargo manifest missing" ∈ (metadata_checks fsNone initial).1.warnings := by
  constructor
  · rfl
  · decide

/-- Claim C3 (amended): in the metadata phase every missing file —
manifest, README, or license — is appended to the warnings list and the
critical-failures list is never touched; a missing manifest only clears
the phase's returned all-passed flag (the phase returns `True` iff the
manifest exists). -/
theorem C3_metadata_routing (fs : FS) (s : CrateChecker) :
    (metadata_checks fs s).1.failed_checks = s.failed_checks ∧
    (metadata_checks fs s).1.warnings =
      s.warnings ++
        ((if fs "Cargo.toml" then [] else ["Cargo manifest missing"]) ++
          (if fs "README.md" then [] else ["README file missing"]) ++
          (if fs "LICENSE" then [] else ["License file missing"])) ∧
    (metadata_checks fs s).2 = fs "Cargo.toml" := by
  obtain ⟨m1, m2, m3, m4, m5, m6⟩ := metadata_go_spec fs required_files s
  refine ⟨m3, ?_, ?_⟩
  · rw [show metadata_checks fs s = metadata_go fs required_files s
        from rfl, m4]
    cases h1 : fs "Cargo.toml" <;> cases h2 : fs "README.md" <;>
      cases h3 : fs "LICENSE" <;>
        simp [missingLabels, required_files, List.filter_cons, h1, h2, h3]
  · rw [show metadata_checks fs s = metadata_go fs required_files s
        from rfl, m6]
    cases h1 : fs "Cargo.toml" <;> simp [required_files, h1]

/-- Claim C4: on a non-zero exit status the executor classifies the check
as a failure and returns the captured standard error text. -/
theorem C4_nonzero_exit_returns_stderr (env : Env) (s : CrateChecker)
    (cmd : Cmd) (desc : String) (critical : Bool) (rc : Int)
    (out err : String) (hout : env cmd command_timeout = .exited rc out err)
    (hrc : rc ≠ 0) :
    (run_command env s cmd desc critical).2.1 = false ∧
    (run_command env s cmd desc critical).2.2 = err := by
  cases critical <;> simp [run_command, hout, hrc]

/-- Witness for C4: a command exiting 1 with non-empty stderr is a
failure and the stderr text is returned. -/
theorem C4_nonzero_exit_returns_stderr_witness :
    (run_command envFailStderr initial ["cargo", "check"]
        "Basic compilation check" true).2.1 = false ∧
    (run_command envFailStderr initial ["cargo", "check"]
        "Basic compilation check" true).2.2 = "error: build failed" :=
  C4_nonzero_exit_returns_stderr envFailStderr initial ["cargo", "check"]
    "Basic compilation check" true 1 "" "error: build failed" rfl
    (by decide)

/-- Counterexample to claim C4 as stated: when the captured standard
error is empty, the executor returns the empty string itself — no
generic message is substituted. -/
theorem C4_empty_stderr_no_generic_message_cex :
    (run_command envAllFail initial ["cargo", "check"]
        "Basic compilation check" true).2.1 = false ∧
    (run_command envAllFail initial ["cargo", "check"]
        "Basic compilation check" true).2.2 = "" := by
  constructor <;> rfl

/-- Claim C5: if a prerequisite check fails, no check from any later
phase is ever invoked — the only commands spawned are the three
prerequisite tool checks, the final state is exactly the
post-prerequisites state (so the metadata file checks, which would
increment `total_checks`, never ran either: `total_checks` is exactly 3)
— and the process exits with code 1. -/
theorem C5_prerequisite_abort (env : Env) (fs : FS)
    (hpre : (check_prerequisites env initial).2 = false) :
    (run_all_checks env fs initial).1.invoked =
      [["cargo", "--version"], ["rustc", "--version"],
        ["git", "--version"]] ∧
    (run_all_checks env fs initial).1.total_checks = 3 ∧
    (run_all_checks env fs initial).1 = (check_prerequisites env initial).1 ∧
    (main [] env fs).1 = 1 := by
  have hrun := run_all_checks_pre_false env fs initial hpre
  obtain ⟨p1, p2, p3, p4, p5, p6⟩ := run_check_list_spec env true tools initial
  refine ⟨?_, ?_, ?_, ?_⟩
  · rw [hrun]
    simpa [check_prerequisites, tools, initial] using p5
  · rw [hrun]
    simpa [check_prerequisites, tools, initial] using p2
  · rw [hrun]
  · simp [main, helpRequested, hrun]

/-- Witness for C5: with every command failing, only the three
prerequisite commands are invoked, `total_checks` is exactly 3, the
state is the post-prerequisites state, and the exit code is 1. -/
theorem C5_prerequisite_abort_witness :
    (run_all_checks envAllFail fsNone initial).1.invoked =
      [["cargo", "--version"], ["rustc", "--version"],
        ["git", "--version"]] ∧
    (run_all_checks envAllFail fsNone initial).1.total_checks = 3 ∧
    (run_all_checks envAllFail fsNone initial).1 =
      (check_prerequisites envAllFail initial).1 ∧
    (main [] envAllFail fsNone).1 = 1 :=
  C5_prerequisite_abort envAllFail fsNone rfl

/-- Claim C6: a command that exceeds the fixed 300-second timeout is
classified as a failure, the label appended to the corresponding list
carries the distinct `" - TIMEOUT"` indicator (never equal to the
`" - FAILED"` label of a non-zero exit for the same description), and the
executor returns the text `"Command timed out"`. -/
theorem C6_timeout_classification (env : Env) (s : CrateChecker)
    (cmd : Cmd) (desc : String) (critical : Bool)
    (hout : env cmd command_timeout = .timeoutExpired) :
    (run_command env s cmd desc critical).2.1 = false ∧
    (run_command env s cmd desc critical).2.2 = "Command timed out" ∧
    (if critical then (run_command env s cmd desc critical).1.failed_checks
      else (run_command env s cmd desc critical).1.warnings) =
      (if critical then s.failed_checks else s.warnings) ++
        [desc ++ " - TIMEOUT"] ∧
    (∀ d : String, d ++ " - TIMEOUT" ≠ d ++ " - FAILED") ∧
    command_timeout = 300 := by
  refine ⟨?_, ?_, ?_, ?_, rfl⟩
  · cases critical <;> simp [run_command, hout]
  · cases critical <;> simp [run_command, hout]
  · cases critical <;> simp [run_command, hout]
  · intro d h
    have hlen := congrArg String.length h
    have h10 : (" - TIMEOUT" : String).length = 10 := rfl
    have h9 : (" - FAILED" : String).length = 9 := rfl
    rw [String.length_append, String.length_append, h10, h9] at hlen
    omega

/-- Witness for C6: a timed-out critical check records the TIMEOUT label
and returns the timeout message. -/
theorem C6_timeout_classification_witness :
    (run_command envExpires initial ["cargo", "test"]
        "All tests" true).2.1 = false ∧
    (run_command envExpires initial ["cargo", "test"]
        "All tests" true).2.2 = "Command timed out" ∧
    (if true then (run_command envExpires initial ["cargo", "test"]
        "All tests" true).1.failed_checks
      else (run_command envExpires initial ["cargo", "test"]
        "All tests" true).1.warnings) =
      (if true then initial.failed_checks else initial.warnings) ++
        ["All tests" ++ " - TIMEOUT"] ∧
    (∀ d : String, d ++ " - TIMEOUT" ≠ d ++ " - FAILED") ∧
    command_timeout = 300 :=
  C6_timeout_classification envExpires initial ["cargo", "test"]
    "All tests" true rfl

/-- Claim C7: when the manifest exists but README and license do not, the
metadata phase appends exactly 2 warnings and 0 critical failures, and
increments `total_checks` by 3 and `passed_checks` by 1. -/
theorem C7_metadata_manifest_only (s : CrateChecker) (fs : FS)
    (h1 : fs "Cargo.toml" = true) (h2 : fs "README.md" = false)
    (h3 : fs "LICENSE" = false) :
    (metadata_checks fs s).1.warnings =
      s.warnings ++ ["README file missing", "License file missing"] ∧
    (metadata_checks fs s).1.failed_checks = s.failed_checks ∧
    (metadata_checks fs s).1.total_checks = s.total_checks + 3 ∧
    (metadata_checks fs s).1.passed_checks = s.passed_checks + 1 := by
  obtain ⟨m1, m2, m3, m4, m5, m6⟩ := metadata_go_spec fs required_files s
  refine ⟨?_, m3, ?_, ?_⟩
  · rw [show metadata_checks fs s = metadata_go fs required_files s
        from rfl, m4]
    simp [missingLabels, required_files, List.filter_cons, h1, h2, h3]
  · rw [show metadata_checks fs s = metadata_go fs required_files s
        from rfl, m2]
    simp [required_files]
  · rw [show metadata_checks fs s = metadata_go fs required_files s
        from rfl, m1]
    simp [filePassCount, required_files, List.filter_cons, h1, h2, h3]

/-- Witness for C7: with only the manifest present, the metadata phase
records the two advisory warnings and the expected counters. -/
theorem C7_metadata_manifest_only_witness :
    (metadata_checks fsOnlyManifest initial).1.warnings =
      initial.warnings ++
        ["README file missing", "License file missing"] ∧
    (metadata_checks fsOnlyManifest initial).1.failed_checks =
      initial.failed_checks ∧
    (metadata_checks fsOnlyManifest initial).1.total_checks =
      initial.total_checks + 3 ∧
    (metadata_checks fsOnlyManifest initial).1.passed_checks =
      initial.passed_checks + 1 :=
  C7_metadata_manifest_only initial fsOnlyManifest rfl rfl rfl

/-- Claim C8: invoking with first argument exactly `-h` or `--help`
exits with code 0, constructs no checker state beyond the fresh one
(`total_checks` stays 0), and spawns no command. -/
theorem C8_help_flag (argv : List String) (env : Env) (fs : FS)
    (h : argv.head? = some "-h" ∨ argv.head? = some "--help") :
    (main argv env fs).1 = 0 ∧
    (main argv env fs).2.total_checks = 0 ∧
    (main argv env fs).2.invoked = [] := by
  have hh : helpRequested argv = true := by
    cases argv with
    | nil => simp at h
    | cons a t =>
      simp only [List.head?_cons, Option.some.injEq] at h
      rcases h with h | h <;> subst h <;> rfl
  simp [main, hh, initial]

/-- Witness for C8: `-h` exits 0 with no checks run. -/
theorem C8_help_flag_witness :
    (main ["-h"] envAllFail fsNone).1 = 0 ∧
    (main ["-h"] envAllFail fsNone).2.total_checks = 0 ∧
    (main ["-h"] envAllFail fsNone).2.invoked = [] :=
  C8_help_flag ["-h"] envAllFail fsNone (Or.inl rfl)

/-- Claim C9: when the prerequisites pass, the accumulated phase result
booleans have no influence on the exit code — the process exits 0 if and
only if both the critical-failures list and the warnings list are empty
when the summary runs. -/
theorem C9_exit_code_ignores_phase_flags (env : Env) (fs : FS)
    (hpre : (check_prerequisites env initial).2 = true) :
    (main [] env fs).1 = 0 ↔
      (run_all_checks env fs initial).1.failed_checks = [] ∧
      (run_all_checks env fs initial).1.warnings = [] := by
  have hmain : main [] env fs =
      (if (run_all_checks env fs initial).2 then 0 else 1,
        (run_all_checks env fs initial).1) := by
    simp [main, helpRequested]
  have hsnd : (run_all_checks env fs initial).2 =
      (print_summary (run_all_checks env fs initial).1).2 := by
    rw [run_all_checks_pre_true env fs initial hpre]
  have hiff := print_summary_snd_iff (run_all_checks env fs initial).1
  rw [hmain]
  by_cases hb : (print_summary (run_all_checks env fs initial).1).2 = true
  · simp [hsnd, hb, hiff.mp hb]
  · have hb' : (print_summary (run_all_checks env fs initial).1).2 =
        false := by simpa using hb
    constructor
    · intro h0
      rw [hsnd, hb'] at h0
      simp at h0
    · intro hc
      exact absurd (hiff.mpr hc) hb

/-- Witness for C9: with every command passing and every file present,
the exit code is 0 and both lists are empty. -/
theorem C9_exit_code_ignores_phase_flags_witness :
    (main [] envAllPass fsAll).1 = 0 ↔
      (run_all_checks envAllPass fsAll initial).1.failed_checks = [] ∧
      (run_all_checks envAllPass fsAll initial).1.warnings = [] :=
  C9_exit_code_ignores_phase_flags envAllPass fsAll (by decide)

/-- Claim C10: the prerequisites phase never short-circuits — all three
tool checks are spawned and counted regardless of earlier failures, every
failed prerequisite's label lands in the critical-failures list, and on a
prerequisite abort `total_checks` is exactly 3. -/
theorem C10_prereqs_no_short_circuit (env : Env) (s : CrateChecker) :
    (check_prerequisites env s).1.invoked =
      s.invoked ++
        [["cargo", "--version"], ["rustc", "--version"],
          ["git", "--version"]] ∧
    (check_prerequisites env s).1.total_checks = s.total_checks + 3 ∧
    (∀ c : Cmd × String, c ∈ tools →
      outcomePassed (env c.1 command_timeout) = false →
      failLabel c.2 (env c.1 command_timeout) ∈
        (check_prerequisites env s).1.failed_checks) ∧
    (∀ fs : FS, (check_prerequisites env initial).2 = false →
      (run_all_checks env fs initial).1.total_checks = 3) := by
  obtain ⟨p1, p2, p3, p4, p5, p6⟩ := run_check_list_spec env true tools s
  refine ⟨?_, ?_, ?_, ?_⟩
  · simpa [check_prerequisites, tools] using p5
  · simpa [check_prerequisites, tools] using p2
  · intro c hc hfail
    rw [show check_prerequisites env s = run_check_list env true tools s
        from rfl, p3]
    simp only [if_true]
    refine List.mem_append.mpr (Or.inr ?_)
    unfold failLabels
    exact List.mem_map.mpr
      ⟨c, List.mem_filter.mpr ⟨hc, by simp [hfail]⟩, rfl⟩
  · intro fs hpre
    rw [run_all_checks_pre_false env fs initial hpre]
    obtain ⟨q1, q2, q3, q4, q5, q6⟩ :=
      run_check_list_spec env true tools initial
    simpa [check_prerequisites, tools, initial] using q2

/-- Witness for C10: with every command failing, the cargo prerequisite's
failure label is in the critical-failures list and the aborted run has
exactly 3 total checks. -/
theorem C10_prereqs_no_short_circuit_witness :
    failLabel "Cargo availability"
        (envAllFail ["cargo", "--version"] command_timeout) ∈
      (check_prerequisites envAllFail initial).1.failed_checks ∧
    (run_all_checks envAllFail fsNone initial).1.total_checks = 3 :=
  ⟨(C10_prereqs_no_short_circuit envAllFail initial).2.2.1
      (["cargo", "--version"], "Cargo availability") (by decide) rfl,
    (C10_prereqs_no_short_circuit envAllFail initial).2.2.2 fsNone rfl⟩

end CrateCheck
